import Mathlib

/-!
Shallow embedding of the core of the Qkron/taskmaster repository:
command validation and sanitization, the execution retry loop, output
truncation (src/taskmaster/core/executor.py), interval-schedule parsing and
scheduler registration (src/taskmaster/core/scheduler.py), dependency
checking and execution-record updates (src/taskmaster/services/task_service.py),
and notification fan-out (src/taskmaster/services/notification_service.py).

Python strings are modelled as Lean `String`/`List Char` restricted to the
ASCII behaviour of the relevant operations (whitespace classes, digits);
machine integers are `Int`/`Nat` (Python ints are unbounded, so no wrap);
timestamps (`datetime.utcnow()`) are abstract `Nat` values supplied by the
caller; external collaborators (the `shlex` tokenizer, the `uuid` parser,
APScheduler's cron parser, channel providers, the subprocess spawn inside
`TaskExecutor.execute`) are parameters of the definitions that call them.
-/

namespace Taskmaster

/-- `TaskExecutionStatus` from src/taskmaster/schemas.py. -/
inductive TaskExecutionStatus where
  | pending
  | running
  | completed
  | failed
  | timeout
  | cancelled
deriving DecidableEq, Repr

/-! ### Command validator (src/taskmaster/core/executor.py, lines 19-110) -/

/-- ASCII whitespace, as matched by Python's `\s` regex class and `str.strip()`
(the unicode whitespace extension of those operations is not modelled). -/
def isPyWs (c : Char) : Bool :=
  c = ' ' || c = '\t' || c = '\n' || c = '\r' || c = '\x0b' || c = '\x0c'

/-- `re.search`: does `p` match starting at some position of the list? -/
def searchAny (p : List Char → Bool) : List Char → Bool
  | [] => p []
  | c :: rest => p (c :: rest) || searchAny p rest

/-- Consume a literal character sequence, case-sensitively. -/
def consumeLit : List Char → List Char → Option (List Char)
  | [], l => some l
  | a :: more, c :: rest => if c = a then consumeLit more rest else none
  | _ :: _, [] => none

/-- Match the letters of `w` case-insensitively (the patterns are compiled
with `re.IGNORECASE`), then require one whitespace character (`\s`). -/
def wordThenWs : List Char → List Char → Bool
  | [], c :: _ => isPyWs c
  | [], [] => false
  | a :: more, c :: rest => c.toLower = a && wordThenWs more rest
  | _ :: _, [] => false

/-- Match `lit` case-insensitively as a prefix. -/
def litPrefixCI : List Char → List Char → Bool
  | [], _ => true
  | a :: more, c :: rest => c.toLower = a && litPrefixCI more rest
  | _ :: _, [] => false

/-- A pattern of the shape `sep` `\s*` `word` `\s` (e.g. `;\s*rm\s`). -/
def sepThenWordWs (sep word : List Char) (cmd : List Char) : Bool :=
  searchAny
    (fun t =>
      match consumeLit sep t with
      | some r => wordThenWs word (r.dropWhile isPyWs)
      | none => false)
    cmd

/-- A pattern of the shape `c` `\s*` `lit` (e.g. `>\s*/dev/`, `>\s*\|`). -/
def charThenWsLit (c : Char) (lit : List Char) (cmd : List Char) : Bool :=
  searchAny
    (fun t =>
      match t with
      | d :: r => d = c && litPrefixCI lit (r.dropWhile isPyWs)
      | [] => false)
    cmd

/-- The `DANGEROUS_PATTERNS` list (executor.py lines 19-31), each paired with
the regex text used in the failure message. -/
def dangerousPatterns : List (String × (List Char → Bool)) :=
  [ (";\\s*rm\\s", sepThenWordWs [';'] ['r', 'm']),
    ("\\|\\s*rm\\s", sepThenWordWs ['|'] ['r', 'm']),
    ("&&\\s*rm\\s", sepThenWordWs ['&', '&'] ['r', 'm']),
    (";\\s*curl\\s", sepThenWordWs [';'] ['c', 'u', 'r', 'l']),
    ("\\|\\s*curl\\s", sepThenWordWs ['|'] ['c', 'u', 'r', 'l']),
    (";\\s*wget\\s", sepThenWordWs [';'] ['w', 'g', 'e', 't']),
    ("\\|\\s*wget\\s", sepThenWordWs ['|'] ['w', 'g', 'e', 't']),
    ("\\$\\(", fun cmd => searchAny (fun t => (consumeLit ['$', '('] t).isSome) cmd),
    ("`", fun cmd => cmd.contains '`'),
    (">\\s*/dev/", charThenWsLit '>' ['/', 'd', 'e', 'v', '/']),
    (">\\s*\\|", charThenWsLit '>' ['|']) ]

/-- First dangerous pattern (in list order) matching the command, if any. -/
def firstDangerousPattern (cmd : List Char) : Option String :=
  (dangerousPatterns.find? (fun pr => pr.2 cmd)).map (·.1)

/-- The whitelist block of `validate_command` (executor.py lines 62-74).

`baseCmdTok` models `shlex.split(command)[0]`: it returns the first shell
token, or `none` when `shlex.split` raises `ValueError` or returns no
tokens (both of which make the whitelist check pass silently).  An empty
`allowedCommands` list (the falsy `ALLOWED_COMMANDS` default) disables the
check.  `some msg` is the failure. -/
def whitelistError (baseCmdTok : String → Option String)
    (command : String) (allowedCommands : List String) : Option String :=
  if allowedCommands ≠ [] then
    match baseCmdTok command with
    | some b =>
      if b ∈ allowedCommands then none
      else some ("Command '" ++ b ++ "' not in allowed list")
    | none => none
  else none

/-- `validate_command` (executor.py lines 43-92).  `allowedCommands` models
the effective whitelist (the `allowed_commands` argument if not `None`,
else the module-level `ALLOWED_COMMANDS`, which is `[]`). -/
def validateCommand (baseCmdTok : String → Option String)
    (command : String) (allowedCommands : List String) : Bool × String :=
  if command.toList.all isPyWs then
    (false, "Command cannot be empty")
  else if command.length > 10000 then
    (false, "Command too long (max 10000 characters)")
  else
    match whitelistError baseCmdTok command allowedCommands with
    | some msg => (false, msg)
    | none =>
      match firstDangerousPattern command.toList with
      | some pat => (false, "Command contains disallowed pattern: " ++ pat)
      | none =>
        if command.toList.contains '\x00' then
          (false, "Command contains null bytes")
        else if (command.toList.filter (· = '\n')).length > 2 then
          (false, "Command contains too many newlines")
        else
          (true, "")

/-! ### Command sanitizer (executor.py lines 95-110) -/

/-- `command.replace("\x00", "")`: removing every occurrence of a single
character is removal by filtering. -/
def removeNullBytes (l : List Char) : List Char :=
  l.filter (fun c => c ≠ '\x00')

/-- `re.sub(r"\n{3,}", "\n\n", command)`: every maximal run of 3 or more
newlines is replaced by exactly two newlines. -/
def collapseNewlines : List Char → List Char
  | '\n' :: '\n' :: '\n' :: rest => collapseNewlines ('\n' :: '\n' :: rest)
  | c :: rest => c :: collapseNewlines rest
  | [] => []

/-- Python `str.strip()` (ASCII whitespace): drop whitespace from the left,
then from the right. -/
def pyStrip (l : List Char) : List Char :=
  (l.dropWhile isPyWs).rdropWhile isPyWs

/-- `sanitize_command` (executor.py lines 95-110): remove null bytes, then
collapse newline runs, then `strip()`. -/
def sanitizeCommand (command : String) : String :=
  String.mk (pyStrip (collapseNewlines (removeNullBytes command.toList)))

/-! ### Output truncation (executor.py lines 266-278) -/

/-- `max_length = 100 * 1024` (executor.py line 274). -/
def maxOutputLength : Nat := 100 * 1024

/-- The truncation marker appended to over-long output. -/
def truncationMarker : String := "\n... (truncated)"

/-- Python slicing `s[:n]` on strings is a character-wise take. -/
def pyTake (s : String) (n : Nat) : String :=
  String.mk (s.toList.take n)

/-- The truncation step applied to one decoded output stream
(executor.py lines 273-278): `if stdout_str and len(stdout_str) > max_length:
stdout_str = stdout_str[:max_length] + "\n... (truncated)"`.
`none` models a `None` stream (empty captured bytes). -/
def truncateOutput : Option String → Option String
  | none => none
  | some s =>
    if s ≠ "" && s.length > maxOutputLength then
      some (pyTake s maxOutputLength ++ truncationMarker)
    else
      some s

/-- The two streams are truncated one after the other, independently. -/
def truncateOutputs (out err : Option String) : Option String × Option String :=
  (truncateOutput out, truncateOutput err)

/-! ### Execution results and the retry loop (executor.py lines 132-212) -/

/-- The result dict built by `TaskExecutor.execute` /
`TaskExecutor.execute_with_retry`.  `attemptNumber` is `none` while the
dict has no `"attempt_number"` key (the wrapper adds it per attempt). -/
structure ExecDict where
  status : TaskExecutionStatus
  returnCode : Option Int
  stdout : Option String
  stderr : Option String
  duration : Int
  error : Option String
  attemptNumber : Option Nat := none
deriving DecidableEq, Repr

/-- The dict returned when validation fails (executor.py lines 156-163). -/
def validationFailedDict (msg : String) : ExecDict :=
  { status := .failed, returnCode := none, stdout := none, stderr := none,
    duration := 0, error := some ("Command validation failed: " ++ msg) }

/-- The fallback dict `last_result or {...}` returns when the loop body never
ran (executor.py lines 205-212). -/
def noResultDict : ExecDict :=
  { status := .failed, returnCode := none, stdout := none, stderr := none,
    duration := 0, error := some "No execution result available" }

/-- The `for attempt in range(max_retries)` loop of `execute_with_retry`
(executor.py lines 170-203).  `oracle i` is the dict `self.execute` returns
for the attempt with zero-based index `i` (the spawned subprocess is the
non-deterministic part, so it is a parameter); `remaining` is the number of
loop iterations left and `idx` the current zero-based attempt index.
Returns `(last_result, attempts executed, sleeps performed)`; `none` for
`last_result` models the Python `None` it starts from. -/
def retryAux (oracle : Nat → ExecDict) : Nat → Nat → Option ExecDict × Nat × Nat
  | 0, _ => (none, 0, 0)
  | r + 1, idx =>
    let res := { oracle idx with attemptNumber := some (idx + 1) }
    if res.status = .completed then
      (some res, 1, 0)
    else if r = 0 then
      (some res, 1, 0)
    else
      let out := retryAux oracle r (idx + 1)
      (out.1, out.2.1 + 1, out.2.2 + 1)

/-- `TaskExecutor.execute_with_retry` (executor.py lines 132-212): validate
once, sanitize, then run the retry loop; `max_retries` is a Python int, and
`range(max_retries)` is empty when it is `≤ 0`.  The returned triple is
`(result dict, number of attempts executed, number of retry-delay sleeps)`;
an attempt count of 0 also means no process was spawned. -/
def executeWithRetry (baseCmdTok : String → Option String)
    (oracle : Nat → ExecDict) (command : String)
    (allowedCommands : List String) (maxRetries : Int) : ExecDict × Nat × Nat :=
  if (validateCommand baseCmdTok command allowedCommands).1 = false then
    (validationFailedDict (validateCommand baseCmdTok command allowedCommands).2, 0, 0)
  else
    match retryAux oracle maxRetries.toNat 0 with
    | (some r, a, s) => (r, a, s)
    | (none, a, s) => (noResultDict, a, s)

/-! ### Interval parsing and scheduler registration
(src/taskmaster/core/scheduler.py, lines 70-227) -/

/-- Digits possibly grouped by single underscores, as accepted after the
optional sign by Python's `int(str)` (ASCII digits; unicode digits are not
modelled).  An underscore may only stand between two digits. -/
def digitsUnderscore : List Char → Bool
  | [] => false
  | c :: rest => c.isDigit && digitsTail rest
where
  digitsTail : List Char → Bool
    | [] => true
    | '_' :: [] => false
    | '_' :: c :: rest => c.isDigit && digitsTail (c :: rest)
    | c :: rest => c.isDigit && digitsTail rest

/-- Decimal value of an underscore-grouped digit string. -/
def digitsValue (l : List Char) : Nat :=
  (l.filter (fun c => c ≠ '_')).foldl (fun acc c => acc * 10 + (c.toNat - 48)) 0

/-- Python `int(str)` with base 10: strip whitespace, optional single sign,
then underscore-grouped digits; `none` models the `ValueError`. -/
def pyIntParse (s : String) : Option Int :=
  match pyStrip s.toList with
  | '+' :: rest =>
    if digitsUnderscore rest then some (digitsValue rest) else none
  | '-' :: rest =>
    if digitsUnderscore rest then some (-(digitsValue rest : Int)) else none
  | t => if digitsUnderscore t then some (digitsValue t) else none

/-- An APScheduler trigger as far as the core constructs one: either a cron
trigger (built by the external `CronTrigger.from_crontab`, opaque here) or
an `IntervalTrigger` with exactly one of the unit keyword arguments set. -/
inductive Trigger where
  | cron (data : String) (timezone : String)
  | interval (seconds minutes hours days : Int) (timezone : String)
deriving DecidableEq, Repr

/-- `ScheduleType` from src/taskmaster/schemas.py. -/
inductive ScheduleType where
  | cron
  | interval
deriving DecidableEq, Repr

/-- `TaskScheduler._parse_interval_trigger` (scheduler.py lines 202-227):
`schedule[-1]` raises `IndexError` on the empty string, `int(schedule[:-1])`
raises `ValueError` on a bad prefix, and an unknown (lowercased) unit raises
`ValueError` — in that order.  (`timedelta` overflow inside APScheduler for
astronomically large values is not modelled.) -/
def parseIntervalTrigger (schedule timezone : String) : Except String Trigger :=
  match (schedule.toList).getLast? with
  | none => .error "IndexError: string index out of range"
  | some lastChar =>
    let unit := lastChar.toLower
    let prefixPart := String.mk (schedule.toList.dropLast)
    match pyIntParse prefixPart with
    | none => .error ("invalid literal for int() with base 10: " ++ prefixPart)
    | some v =>
      if unit = 's' then .ok (.interval v 0 0 0 timezone)
      else if unit = 'm' then .ok (.interval 0 v 0 0 timezone)
      else if unit = 'h' then .ok (.interval 0 0 v 0 timezone)
      else if unit = 'd' then .ok (.interval 0 0 0 v timezone)
      else .error ("Invalid interval unit: " ++ String.mk [unit])

/-- `TaskScheduler._create_trigger` (scheduler.py lines 181-200).
`cronParse` models the external `CronTrigger.from_crontab`. -/
def createTrigger (cronParse : String → String → Except String Trigger)
    (ty : ScheduleType) (schedule timezone : String) : Except String Trigger :=
  match ty with
  | .cron => cronParse schedule timezone
  | .interval => parseIntervalTrigger schedule timezone

/-- The scheduler's registration state: the `self.jobs` dict, as an
association list from task id to the registered trigger. -/
structure SchedState where
  jobs : List (String × Trigger)
deriving DecidableEq, Repr

/-- `TaskScheduler.remove_task` (scheduler.py lines 116-127). -/
def removeTask (st : SchedState) (taskId : String) : SchedState :=
  { jobs := st.jobs.filter (fun p => p.1 ≠ taskId) }

/-- `TaskScheduler.add_task` (scheduler.py lines 70-114): remove an existing
registration for the id, build the trigger (exceptions propagate to the
caller at this point, after the removal), then register the job.  Returns
the state after the call together with `.ok`/`.error`. -/
def addTask (cronParse : String → String → Except String Trigger)
    (st : SchedState) (taskId : String) (ty : ScheduleType)
    (schedule timezone : String) : SchedState × Except String Unit :=
  let st1 := if st.jobs.any (fun p => p.1 = taskId) then removeTask st taskId else st
  match createTrigger cronParse ty schedule timezone with
  | .error e => (st1, .error e)
  | .ok trig => ({ jobs := st1.jobs ++ [(taskId, trig)] }, .ok ())

/-! ### Dependency gate (src/taskmaster/services/task_service.py, lines 53-89)

Job identities are an abstract type `υ` with decidable equality (UUIDs in
the source); `parse` models the external `uuid.UUID(dep_id)` constructor,
returning `none` when it raises `ValueError`.  The store is the list of
`Task` rows visible to `get_task`. -/

/-- The fields of a `Task` row that `check_dependencies` reads
(src/taskmaster/db/models.py): `status` is the stored string column,
compared against `TaskStatus.COMPLETED.value = "completed"`;
`dependencies` is a nullable JSON list of strings. -/
structure TaskRow (υ : Type) where
  id : υ
  name : String
  isActive : Bool
  status : String
  dependencies : Option (List String)

/-- `TaskService.get_task`: look the id up in the store. -/
def getTask {υ : Type} [DecidableEq υ] (store : List (TaskRow υ)) (tid : υ) :
    Option (TaskRow υ) :=
  store.find? (fun t => t.id = tid)

/-- The `for dep_id in task.dependencies` loop of
`TaskService.check_dependencies` (task_service.py lines 66-89). -/
def checkDepsLoop {υ : Type} [DecidableEq υ] (store : List (TaskRow υ))
    (parse : String → Option υ) : List String → Bool × Option String
  | [] => (true, none)
  | d :: rest =>
    match parse d with
    | none => (false, some ("Invalid dependency ID format: " ++ d))
    | some depId =>
      match getTask store depId with
      | none => (false, some ("Dependency task not found: " ++ d))
      | some depTask =>
        if depTask.isActive = false then
          (false, some ("Dependency '" ++ depTask.name ++
            "' is disabled (is_active=False)"))
        else if depTask.status ≠ "completed" then
          (false, some ("Dependency '" ++ depTask.name ++
            "' not completed (status: " ++ depTask.status ++ ")"))
        else
          checkDepsLoop store parse rest

/-- `TaskService.check_dependencies` (task_service.py lines 53-89):
a missing task or an absent/empty dependency list is satisfied
(`if not task or not task.dependencies`); otherwise dependencies are
inspected in list order. -/
def checkDependencies {υ : Type} [DecidableEq υ] (store : List (TaskRow υ))
    (parse : String → Option υ) (tid : υ) : Bool × Option String :=
  match getTask store tid with
  | none => (true, none)
  | some task =>
    match task.dependencies with
    | none => (true, none)
    | some [] => (true, none)
    | some (d :: rest) => checkDepsLoop store parse (d :: rest)

/-- One dependency identity passes all four checks of the loop body. -/
def depPasses {υ : Type} [DecidableEq υ] (store : List (TaskRow υ))
    (parse : String → Option υ) (d : String) : Bool :=
  match parse d with
  | none => false
  | some depId =>
    match getTask store depId with
    | none => false
    | some depTask => depTask.isActive && depTask.status = "completed"

/-! ### Execution records (task_service.py lines 245-333)

Timestamps (`datetime.utcnow()`) are abstract `Nat` values supplied with
each update; the JSON `result` payload is kept opaque as an
`Option String`. -/

/-- The mutable fields of a `TaskExecution` row that
`create_execution`/`update_execution` write. -/
structure ExecutionRec where
  status : TaskExecutionStatus
  endTime : Option Nat
  result : Option String
  error : Option String
  stdout : Option String
  stderr : Option String
  returnCode : Option Int
  duration : Option Int
  attemptNumber : Nat
deriving DecidableEq, Repr

/-- `TaskService.create_execution` (task_service.py lines 245-260): a fresh
row holds only `task_id` and `status`; `end_time` starts unset (NULL) and
`attempt_number` defaults to 1 (models.py line 125). -/
def createExecution (status : TaskExecutionStatus) : ExecutionRec :=
  { status := status, endTime := none, result := none, error := none,
    stdout := none, stderr := none, returnCode := none, duration := none,
    attemptNumber := 1 }

/-- The arguments of one `TaskService.update_execution` call, together with
the `datetime.utcnow()` value `now` observed during that call. -/
structure UpdateArgs where
  status : TaskExecutionStatus
  result : Option String := none
  error : Option String := none
  stdout : Option String := none
  stderr : Option String := none
  returnCode : Option Int := none
  duration : Option Int := none
  attemptNumber : Nat := 1
  now : Nat

/-- `TaskService.update_execution` (task_service.py lines 295-333): every
field is overwritten from the arguments; `end_time` is set to `utcnow()`
exactly when the new status is in `[COMPLETED, FAILED, TIMEOUT]`
(lines 323-328) and is left unchanged otherwise. -/
def updateExecution (e : ExecutionRec) (u : UpdateArgs) : ExecutionRec :=
  { status := u.status, result := u.result, error := u.error,
    stdout := u.stdout, stderr := u.stderr, returnCode := u.returnCode,
    duration := u.duration, attemptNumber := u.attemptNumber,
    endTime :=
      if u.status = .completed ∨ u.status = .failed ∨ u.status = .timeout then
        some u.now
      else e.endTime }

/-- A sequence of `update_execution` calls applied in order. -/
def applyUpdates (e : ExecutionRec) (us : List UpdateArgs) : ExecutionRec :=
  us.foldl updateExecution e

/-! ### Notification fan-out
(src/taskmaster/services/notification_service.py) -/

/-- The fields of a `NotificationConfig` row the fan-out reads
(models.py lines 135-173).  The channel-specific JSON blob is modelled by
its `"recipient"` entry: `none` when the key is absent (`dict.get` returns
`None`). -/
structure NotifConfig (υ : Type) where
  userId : υ
  taskId : Option υ
  channel : String
  enabled : Bool
  onSuccess : Bool
  onFailure : Bool
  onStart : Bool
  recipient : Option String

/-- A `NotificationLog` row as written by `send_notification`; `sentAt` is
the `sent_at` timestamp (set from `utcnow()`, abstracted to a flag). -/
structure NotifLog (υ : Type) where
  userId : υ
  taskId : Option υ
  executionId : Option υ
  channel : String
  eventType : String
  status : String
  recipient : String
  subject : String
  content : String
  errorMessage : Option String
  retryCount : Nat
  sentAtSet : Bool

/-- The outcome dict a channel provider's `send` returns. -/
structure SendOutcome where
  success : Bool
  error : Option String

/-- The keys of the `self.providers` dict (notification_service.py
lines 21-25). -/
def knownChannels : List String := ["email", "webhook", "sms"]

/-- `NotificationService.get_user_notification_configs`
(notification_service.py lines 27-45): filter the user's rows; when a task
id is given, keep rows scoped to that task or globally (`task_id IS NULL`).
The `enabled` flag is not consulted anywhere in the query. -/
def getUserNotificationConfigs {υ : Type} [DecidableEq υ]
    (db : List (NotifConfig υ)) (userId : υ) (taskId : Option υ) :
    List (NotifConfig υ) :=
  db.filter (fun c =>
    c.userId = userId &&
      (match taskId with
       | some t => c.taskId = some t || c.taskId = none
       | none => true))

/-- `NotificationService.send_notification` (notification_service.py
lines 118-179): create a log row (status `"pending"`, retry count 0), look
the provider up by channel, dispatch, and record the outcome on the row.
`send` models the external providers' `send` as a function of channel and
recipient. -/
def sendNotification {υ : Type} (send : String → String → SendOutcome)
    (userId : υ) (channel recipient subject content eventType : String)
    (taskId executionId : Option υ) : NotifLog υ :=
  let log0 : NotifLog υ :=
    { userId := userId, taskId := taskId, executionId := executionId,
      channel := channel, eventType := eventType, status := "pending",
      recipient := recipient, subject := subject, content := content,
      errorMessage := none, retryCount := 0, sentAtSet := false }
  if channel ∈ knownChannels then
    let r := send channel recipient
    if r.success then
      { log0 with status := "sent", sentAtSet := true }
    else
      { log0 with
        status := "failed",
        errorMessage := some (r.error.getD "Unknown error"),
        retryCount := log0.retryCount + 1 }
  else
    { log0 with
      status := "failed",
      errorMessage := some ("Unknown channel: " ++ channel) }

/-- The boolean trigger flag of a config for an event type, as selected by
`event_trigger_map` + `getattr(c, trigger_field, False)` (notification_service.py
lines 195-205); an unknown event type selects nothing. -/
def eventFlag {υ : Type} (c : NotifConfig υ) (eventType : String) : Bool :=
  if eventType = "success" then c.onSuccess
  else if eventType = "failure" then c.onFailure
  else if eventType = "start" then c.onStart
  else false

/-- `NotificationService._build_notification_content` (notification_service.py
lines 239-258), on a full executor result dict (the executor's dicts always
carry all keys, so the `in` tests on keys are modelled as present). -/
def buildNotificationContent (taskName eventType : String)
    (executionResult : Option ExecDict) : String :=
  let base := "Task '" ++ taskName ++ "' has " ++ eventType ++ "."
  match executionResult with
  | none => base
  | some r =>
    let c1 := base ++ "\nDuration: " ++ toString r.duration ++ "s"
    let c2 := c1 ++ "\nExit code: " ++
      (match r.returnCode with
       | some n => toString n
       | none => "None")
    let c3 :=
      match r.error with
      | some e => if e ≠ "" then c2 ++ "\nError: " ++ e else c2
      | none => c2
    match r.stdout with
    | some s =>
      if s ≠ "" then
        (c3 ++ "\nOutput:\n" ++ pyTake s 500) ++
          (if s.length > 500 then "\n... (truncated)" else "")
      else c3
    | none => c3

/-- `NotificationService.notify_task_event` (notification_service.py
lines 181-237): select the user's configs for the task scope, keep those
whose trigger flag for the event type is set, and fan out; a config whose
blob has no truthy `"recipient"` is skipped (`continue`) without a log row.
The returned list is exactly the set of log rows created. -/
def notifyTaskEvent {υ : Type} [DecidableEq υ]
    (send : String → String → SendOutcome) (db : List (NotifConfig υ))
    (userId : υ) (taskName eventType : String)
    (taskId executionId : Option υ) (executionResult : Option ExecDict) :
    List (NotifLog υ) :=
  let configs0 := getUserNotificationConfigs db userId taskId
  if eventType ≠ "success" ∧ eventType ≠ "failure" ∧ eventType ≠ "start" then
    []
  else
    let configs := configs0.filter (fun c => eventFlag c eventType)
    if configs.isEmpty then []
    else
      let subject := "Task '" ++ taskName ++ "' " ++ eventType
      let content := buildNotificationContent taskName eventType executionResult
      configs.filterMap (fun c =>
        match c.recipient with
        | none => none
        | some r =>
          if r = "" then none
          else
            some (sendNotification send userId c.channel r subject content
              eventType taskId executionId))

/-- The selection the claims speak about: the user's configs in scope whose
trigger flag for the event type is set. -/
def selectedConfigs {υ : Type} [DecidableEq υ] (db : List (NotifConfig υ))
    (userId : υ) (taskId : Option υ) (eventType : String) :
    List (NotifConfig υ) :=
  (getUserNotificationConfigs db userId taskId).filter
    (fun c => eventFlag c eventType)

/-- A config blob carries a non-empty recipient. -/
def hasRecipient {υ : Type} (c : NotifConfig υ) : Bool :=
  match c.recipient with
  | some r => r ≠ ""
  | none => false

/-! ## Theorems -/

/-- C10: `execute_with_retry` called with `max_retries <= 0` on a command
that passes validation performs zero execution attempts and returns a result
with status `failed`, `return_code=None`, `stdout=None`, `stderr=None`,
`duration=0` and error text `"No execution result available"`, with no
`attempt_number` field set. -/
theorem C10_zero_max_retries_yields_placeholder :
    ∀ (baseCmdTok : String → Option String) (oracle : Nat → ExecDict)
      (command : String) (allowed : List String) (maxRetries : Int),
      maxRetries ≤ 0 →
      (validateCommand baseCmdTok command allowed).1 = true →
      executeWithRetry baseCmdTok oracle command allowed maxRetries =
        ({ status := .failed, returnCode := none, stdout := none,
           stderr := none, duration := 0,
           error := some "No execution result available",
           attemptNumber := none }, 0, 0) := by
  intro tok oracle cmd allowed maxR hle hval
  have h0 : maxR.toNat = 0 := Int.toNat_of_nonpos hle
  simp [executeWithRetry, hval, h0, retryAux, noResultDict]

/-- Witness for C10 at `max_retries = 0` and the command `"echo hi"`. -/
theorem C10_zero_max_retries_yields_placeholder_witness :
    ((0 : Int) ≤ 0) ∧
    (validateCommand (fun _ => none) "echo hi" []).1 = true ∧
    executeWithRetry (fun _ => none) (fun _ => noResultDict) "echo hi" [] 0 =
      ({ status := .failed, returnCode := none, stdout := none,
         stderr := none, duration := 0,
         error := some "No execution result available",
         attemptNumber := none }, 0, 0) :=
  ⟨by decide, by decide,
    C10_zero_max_retries_yields_placeholder (fun _ => none)
      (fun _ => noResultDict) "echo hi" [] 0 (by decide) (by decide)⟩

/-- C7: captured output strictly longer than `100 * 1024` characters is
stored as exactly its first `100 * 1024` characters followed by the trailing
truncation marker; output at or below the limit is stored unchanged; stdout
and stderr are truncated independently of each other. -/
theorem C7_output_truncation :
    ∀ s : String,
      (s.length > maxOutputLength →
        truncateOutput (some s) =
          some (pyTake s maxOutputLength ++ truncationMarker) ∧
        (pyTake s maxOutputLength ++ truncationMarker).toList =
          s.toList.take maxOutputLength ++ truncationMarker.toList) ∧
      (s.length ≤ maxOutputLength → truncateOutput (some s) = some s) ∧
      (∀ e e' : Option String,
        (truncateOutputs (some s) e).1 = (truncateOutputs (some s) e').1) ∧
      (∀ o o' : Option String,
        (truncateOutputs o (some s)).2 = (truncateOutputs o' (some s)).2) := by
  intro s
  refine ⟨fun h => ⟨?_, rfl⟩, fun h => ?_, fun e e' => rfl, fun o o' => rfl⟩
  · have hne : s ≠ "" := by
      intro he
      subst he
      exact absurd h (by decide)
    simp [truncateOutput, hne, h]
  · have : ¬(s.length > maxOutputLength) := by omega
    simp [truncateOutput, this]

/-- Witness for C7 at a 102401-character string and at `"ab"`. -/
theorem C7_output_truncation_witness :
    (String.mk (List.replicate (maxOutputLength + 1) 'x')).length >
      maxOutputLength ∧
    truncateOutput (some (String.mk (List.replicate (maxOutputLength + 1) 'x'))) =
      some (pyTake (String.mk (List.replicate (maxOutputLength + 1) 'x'))
        maxOutputLength ++ truncationMarker) ∧
    ("ab".length ≤ maxOutputLength ∧
      truncateOutput (some "ab") = some "ab") := by
  have hbig :
      (String.mk (List.replicate (maxOutputLength + 1) 'x')).length >
        maxOutputLength := by
    show (List.replicate (maxOutputLength + 1) 'x').length > maxOutputLength
    rw [List.length_replicate]
    omega
  exact ⟨hbig,
    ((C7_output_truncation (String.mk (List.replicate (maxOutputLength + 1) 'x'))).1
      hbig).1,
    by decide, (C7_output_truncation "ab").2.1 (by decide)⟩

/-- C5 counterexample: updating an execution to status `cancelled` does NOT
set its `end_time` (`update_execution` only sets it for `completed`,
`failed`, `timeout`), contradicting the claim's "end_time is set iff
status ∈ {completed, failed, timeout, cancelled}". -/
theorem C5_cancelled_leaves_end_time_unset :
    (updateExecution (createExecution .pending)
        { status := .cancelled, now := 0 }).status =
      TaskExecutionStatus.cancelled ∧
    (updateExecution (createExecution .pending)
        { status := .cancelled, now := 0 }).endTime = none :=
  ⟨rfl, rfl⟩

theorem applyUpdates_endTime_ne_none (us : List UpdateArgs) :
    ∀ e : ExecutionRec,
      (applyUpdates e us).endTime ≠ none ↔
        e.endTime ≠ none ∨ ∃ u ∈ us,
          u.status = .completed ∨ u.status = .failed ∨ u.status = .timeout := by
  induction us with
  | nil => intro e; simp [applyUpdates]
  | cons u us ih =>
    intro e
    have step : applyUpdates e (u :: us) =
        applyUpdates (updateExecution e u) us := rfl
    rw [step, ih]
    by_cases h : u.status = .completed ∨ u.status = .failed ∨ u.status = .timeout
    · simp [updateExecution, h]
    · simp [updateExecution, h]

/-- C5 (amended): after creation and any sequence of `update_execution`
calls, `end_time` is set if and only if at least one update had status
`completed`, `failed` or `timeout`; in particular an update to `cancelled`
leaves it unset, and an execution only ever in `pending`/`running` has it
unset. -/
theorem C5_end_time_iff_terminal_update :
    ∀ (s0 : TaskExecutionStatus) (us : List UpdateArgs),
      (applyUpdates (createExecution s0) us).endTime ≠ none ↔
        ∃ u ∈ us,
          u.status = .completed ∨ u.status = .failed ∨ u.status = .timeout := by
  intro s0 us
  rw [applyUpdates_endTime_ne_none]
  simp [createExecution]

/-- An interval schedule string on which `_parse_interval_trigger` raises:
empty (`schedule[-1]` raises `IndexError`), or its prefix is rejected by
`int()`, or its lowercased final character is not a known unit. -/
def badIntervalSchedule (schedule : String) : Bool :=
  match schedule.toList.getLast? with
  | none => true
  | some c =>
    !(c.toLower = 's' || c.toLower = 'm' || c.toLower = 'h' || c.toLower = 'd') ||
      (pyIntParse (String.mk schedule.toList.dropLast)).isNone

/-- C8 counterexample: the schedule `"+5m"` has a prefix (`"+5"`) that is
not a string of digits, yet `add_task` raises no error and registers the
job — `int("+5")` accepts the sign. -/
theorem C8_plus_sign_interval_accepted :
    (addTask (fun _ _ => Except.error "unused") (SchedState.mk [])
        "job1" .interval "+5m" "UTC").2 = Except.ok () ∧
    (addTask (fun _ _ => Except.error "unused") (SchedState.mk [])
        "job1" .interval "+5m" "UTC").1.jobs =
      [("job1", Trigger.interval 0 5 0 0 "UTC")] ∧
    ("+5".toList.all Char.isDigit) = false :=
  ⟨rfl, rfl, by decide⟩

/-- C8 (amended): for every interval schedule string that is empty, whose
lowercased final character is not one of `s`,`m`,`h`,`d`, or whose prefix is
rejected by Python integer parsing (which, beyond plain digit strings, also
accepts surrounding whitespace, a sign, and underscore grouping), adding
the job raises an error at add-time and afterwards the job id is not
registered in the scheduler. -/
theorem C8_bad_interval_add_raises_and_unregistered :
    ∀ (cronParse : String → String → Except String Trigger)
      (st : SchedState) (taskId schedule timezone : String),
      badIntervalSchedule schedule = true →
      (∃ e, (addTask cronParse st taskId .interval schedule timezone).2 =
        Except.error e) ∧
      ∀ p ∈ (addTask cronParse st taskId .interval schedule timezone).1.jobs,
        p.1 ≠ taskId := by
  intro cronParse st tid sched tz hbad
  have herr : ∃ e, parseIntervalTrigger sched tz = Except.error e := by
    unfold badIntervalSchedule at hbad
    unfold parseIntervalTrigger
    simp only [String.toList] at hbad ⊢
    cases hlast : sched.data.getLast? with
    | none => simp only [hlast]; exact ⟨_, rfl⟩
    | some c =>
      simp only [hlast] at hbad ⊢
      cases hint : pyIntParse (String.mk sched.data.dropLast) with
      | none => simp only [hint]; exact ⟨_, rfl⟩
      | some v =>
        simp only [hint, Option.isNone_some, Bool.or_false, Bool.not_eq_true',
          Bool.or_eq_false_iff, decide_eq_false_iff_not] at hbad
        simp [hint, hbad.1.1.1, hbad.1.1.2, hbad.1.2, hbad.2]
  obtain ⟨e, he⟩ := herr
  have haddErr :
      (addTask cronParse st tid .interval sched tz).2 = Except.error e := by
    unfold addTask createTrigger
    rw [he]
  have haddSt :
      (addTask cronParse st tid .interval sched tz).1 =
        (if st.jobs.any (fun q => q.1 = tid) then removeTask st tid else st) := by
    unfold addTask createTrigger
    rw [he]
  refine ⟨⟨e, haddErr⟩, ?_⟩
  intro p hp
  rw [haddSt] at hp
  by_cases hin : st.jobs.any (fun q => q.1 = tid)
  · rw [if_pos hin] at hp
    unfold removeTask at hp
    simp only [List.mem_filter, decide_eq_true_eq] at hp
    exact hp.2
  · rw [if_neg hin] at hp
    intro heq
    simp only [List.any_eq_true, decide_eq_true_eq, not_exists, not_and] at hin
    exact hin p hp heq

/-- Witness for C8 (amended) at the schedule `"5q"`. -/
theorem C8_bad_interval_witness :
    badIntervalSchedule "5q" = true ∧
    (∃ e, (addTask (fun _ _ => Except.error "unused")
        (SchedState.mk [("job1", Trigger.cron "* * * * *" "UTC")])
        "job1" .interval "5q" "UTC").2 = Except.error e) ∧
    ∀ p ∈ (addTask (fun _ _ => Except.error "unused")
        (SchedState.mk [("job1", Trigger.cron "* * * * *" "UTC")])
        "job1" .interval "5q" "UTC").1.jobs, p.1 ≠ "job1" := by
  refine ⟨by decide, ?_⟩
  exact C8_bad_interval_add_raises_and_unregistered
    (fun _ _ => Except.error "unused")
    (SchedState.mk [("job1", Trigger.cron "* * * * *" "UTC")])
    "job1" "5q" "UTC" (by decide)

/-- C4 (code bug): a `NotificationConfig` with `enabled=False` whose
`on_success` flag is set IS dispatched to by `notify_task_event` for a
`"success"` event and produces a log row — the selection query never
consults the `enabled` column, contradicting the claim (and the spec's
"all enabled NotificationConfig rows"). -/
theorem C4_disabled_config_still_dispatched :
    (notifyTaskEvent (fun _ _ => { success := true, error := none })
        [{ userId := (1 : Nat), taskId := none, channel := "email",
           enabled := false, onSuccess := true, onFailure := false,
           onStart := false, recipient := some "user@example.com" }]
        1 "nightly-report" "success" none none none).length = 1 ∧
    ({ userId := (1 : Nat), taskId := none, channel := "email",
       enabled := false, onSuccess := true, onFailure := false,
       onStart := false, recipient := some "user@example.com" } :
        NotifConfig Nat).enabled = false :=
  ⟨rfl, rfl⟩

theorem append_left_ne_empty (a b : String) (ha : a ≠ "") : a ++ b ≠ "" := by
  intro he
  apply ha
  apply String.ext
  have hd : a.data ++ b.data = ([] : List Char) := String.data_eq_of_eq he
  exact (List.append_eq_nil.mp hd).1

theorem validateCommand_false_of_dangerous
    (baseCmdTok : String → Option String) (command : String)
    (allowed : List String)
    (h : firstDangerousPattern command.toList ≠ none) :
    (validateCommand baseCmdTok command allowed).1 = false := by
  unfold validateCommand
  split
  · rfl
  split
  · rfl
  split
  · rfl
  split
  · rfl
  · rename_i heq
    exact absurd heq h

theorem whitelistError_ne_empty
    (baseCmdTok : String → Option String) (command : String)
    (allowed : List String) (msg : String)
    (h : whitelistError baseCmdTok command allowed = some msg) : msg ≠ "" := by
  unfold whitelistError at h
  split at h
  · split at h
    · split at h
      · exact absurd h (by simp)
      · cases h
        exact append_left_ne_empty _ _
          (append_left_ne_empty _ _ (by decide))
    · exact absurd h (by simp)
  · exact absurd h (by simp)

theorem validateCommand_true_or_reason
    (baseCmdTok : String → Option String) (command : String)
    (allowed : List String) :
    (validateCommand baseCmdTok command allowed).1 = true ∨
      (validateCommand baseCmdTok command allowed).2 ≠ "" := by
  unfold validateCommand
  split
  · right; decide
  split
  · right; decide
  split
  · rename_i msg hmsg
    right
    simpa using whitelistError_ne_empty baseCmdTok command allowed msg hmsg
  split
  · rename_i pat hpat
    right
    exact append_left_ne_empty _ _ (by decide)
  · split
    · right; decide
    · split
      · right; decide
      · left; rfl

theorem validateCommand_reason_nonempty
    (baseCmdTok : String → Option String) (command : String)
    (allowed : List String)
    (h : (validateCommand baseCmdTok command allowed).1 = false) :
    (validateCommand baseCmdTok command allowed).2 ≠ "" :=
  (validateCommand_true_or_reason baseCmdTok command allowed).resolve_left
    (by simp [h])

/-- C1: for every command that matches a denylist pattern (or otherwise
fails validation), `validate` returns not-ok with a (non-empty) reason, and
`execute_with_retry` on such a command immediately returns a result with
status `failed`, `return_code=None`, `stdout=None`, `stderr=None` and
`duration=0`, executing zero attempts (no process spawned, no retry
consumed, no sleep). -/
theorem C1_validation_failure_short_circuits :
    ∀ (baseCmdTok : String → Option String) (oracle : Nat → ExecDict)
      (command : String) (allowed : List String) (maxRetries : Int),
      (firstDangerousPattern command.toList ≠ none ∨
        (validateCommand baseCmdTok command allowed).1 = false) →
      (validateCommand baseCmdTok command allowed).1 = false ∧
      (validateCommand baseCmdTok command allowed).2 ≠ "" ∧
      executeWithRetry baseCmdTok oracle command allowed maxRetries =
        ({ status := .failed, returnCode := none, stdout := none,
           stderr := none, duration := 0,
           error := some ("Command validation failed: " ++
             (validateCommand baseCmdTok command allowed).2),
           attemptNumber := none }, 0, 0) := by
  intro tok oracle cmd allowed maxR h
  have hfalse : (validateCommand tok cmd allowed).1 = false := by
    rcases h with h | h
    · exact validateCommand_false_of_dangerous tok cmd allowed h
    · exact h
  refine ⟨hfalse, validateCommand_reason_nonempty tok cmd allowed hfalse, ?_⟩
  simp [executeWithRetry, hfalse, validationFailedDict]

/-- Witness for C1 at the denylisted command `"; rm -rf /"`. -/
theorem C1_validation_failure_short_circuits_witness :
    firstDangerousPattern ("; rm -rf /").toList ≠ none ∧
    (validateCommand (fun _ => none) "; rm -rf /" []).1 = false ∧
    (validateCommand (fun _ => none) "; rm -rf /" []).2 ≠ "" ∧
    executeWithRetry (fun _ => none) (fun _ => noResultDict) "; rm -rf /" [] 3 =
      ({ status := .failed, returnCode := none, stdout := none,
         stderr := none, duration := 0,
         error := some ("Command validation failed: " ++
           (validateCommand (fun _ => none) "; rm -rf /" []).2),
         attemptNumber := none }, 0, 0) := by
  have hd : firstDangerousPattern ("; rm -rf /").toList ≠ none := by decide
  obtain ⟨h1, h2, h3⟩ := C1_validation_failure_short_circuits (fun _ => none)
    (fun _ => noResultDict) "; rm -rf /" [] 3 (Or.inl hd)
  exact ⟨hd, h1, h2, h3⟩

theorem retryAux_all_fail (oracle : Nat → ExecDict) :
    ∀ (r idx : Nat), 1 ≤ r →
      (∀ j, j < r → (oracle (idx + j)).status ≠ .completed) →
      retryAux oracle r idx =
        (some { oracle (idx + r - 1) with attemptNumber := some (idx + r) },
          r, r - 1) := by
  intro r
  induction r with
  | zero => intro idx h1; omega
  | succ n ih =>
    intro idx h1 hfail
    have h0 : ¬((oracle idx).status = .completed) := by
      have := hfail 0 (by omega)
      simpa using this
    by_cases hn : n = 0
    · subst hn
      simp [retryAux, h0]
    · have hrec := ih (idx + 1) (by omega) (fun j hj => by
        have h2 : idx + 1 + j = idx + (j + 1) := by omega
        rw [h2]
        exact hfail (j + 1) (by omega))
      have e1 : idx + 1 + n - 1 = idx + (n + 1) - 1 := by omega
      have e2 : idx + 1 + n = idx + (n + 1) := by omega
      have e3 : n - 1 + 1 = n := by omega
      simp only [retryAux, h0, hn, if_false, ite_false]
      rw [hrec]
      simp only [e1, e2, e3]
      simp

theorem retryAux_first_success (oracle : Nat → ExecDict) :
    ∀ (i r idx : Nat), i < r →
      (oracle (idx + i)).status = .completed →
      (∀ j, j < i → (oracle (idx + j)).status ≠ .completed) →
      retryAux oracle r idx =
        (some { oracle (idx + i) with attemptNumber := some (idx + i + 1) },
          i + 1, i) := by
  intro i
  induction i with
  | zero =>
    intro r idx hir hc hfail
    cases r with
    | zero => omega
    | succ n =>
      have hc' : (oracle idx).status = .completed := by simpa using hc
      simp [retryAux, hc']
  | succ m ih =>
    intro r idx hir hc hfail
    cases r with
    | zero => omega
    | succ n =>
      have h0 : ¬((oracle idx).status = .completed) := by
        have := hfail 0 (by omega)
        simpa using this
      have hn : n ≠ 0 := by omega
      have e2 : idx + 1 + m = idx + (m + 1) := by omega
      have hrec := ih n (idx + 1) (by omega)
        (by rw [e2]; exact hc)
        (fun j hj => by
          have h2 : idx + 1 + j = idx + (j + 1) := by omega
          rw [h2]
          exact hfail (j + 1) (by omega))
      simp only [retryAux, h0, hn, if_false, ite_false]
      rw [hrec]
      simp only [e2]

/-- C2: for every `maxRetries >= 1` (and a command passing validation),
`execute_with_retry` returns the result of the first attempt whose status is
`completed` — tagged with its attempt number and performing no further
attempts — and when every attempt fails it performs exactly `maxRetries`
attempts with `maxRetries - 1` retry-delay sleeps between them and returns
the last attempt's result carrying `attempt_number = maxRetries`. -/
theorem C2_retry_loop_semantics :
    ∀ (baseCmdTok : String → Option String) (oracle : Nat → ExecDict)
      (command : String) (allowed : List String) (maxRetries : Int),
      1 ≤ maxRetries →
      (validateCommand baseCmdTok command allowed).1 = true →
      (∀ i, i < maxRetries.toNat →
        (oracle i).status = .completed →
        (∀ j, j < i → (oracle j).status ≠ .completed) →
        executeWithRetry baseCmdTok oracle command allowed maxRetries =
          ({ oracle i with attemptNumber := some (i + 1) }, i + 1, i)) ∧
      ((∀ j, j < maxRetries.toNat → (oracle j).status ≠ .completed) →
        executeWithRetry baseCmdTok oracle command allowed maxRetries =
          ({ oracle (maxRetries.toNat - 1) with
             attemptNumber := some maxRetries.toNat },
            maxRetries.toNat, maxRetries.toNat - 1)) := by
  intro tok oracle cmd allowed maxR h1 hval
  have hvne : ¬((validateCommand tok cmd allowed).1 = false) := by simp [hval]
  have htn : 1 ≤ maxR.toNat := by omega
  constructor
  · intro i hi hc hfail
    have haux := retryAux_first_success oracle i maxR.toNat 0 hi
      (by simpa using hc) (fun j hj => by simpa using hfail j hj)
    unfold executeWithRetry
    rw [if_neg hvne, haux]
    simp
  · intro hfail
    have haux := retryAux_all_fail oracle maxR.toNat 0 htn
      (fun j hj => by simpa using hfail j hj)
    unfold executeWithRetry
    rw [if_neg hvne, haux]
    simp

/-- Witness for C2: `maxRetries = 3` with an always-failing attempt oracle
on the valid command `"echo hi"`. -/
theorem C2_retry_loop_semantics_witness :
    ((1 : Int) ≤ 3) ∧
    (validateCommand (fun _ => none) "echo hi" []).1 = true ∧
    executeWithRetry (fun _ => none)
      (fun _ => { status := .failed, returnCode := some 1, stdout := none,
                  stderr := none, duration := 0,
                  error := some "Exit code: 1" })
      "echo hi" [] 3 =
      ({ status := .failed, returnCode := some 1, stdout := none,
         stderr := none, duration := 0, error := some "Exit code: 1",
         attemptNumber := some 3 }, 3, 2) := by
  refine ⟨by decide, by decide, ?_⟩
  have h := (C2_retry_loop_semantics (fun _ => none)
    (fun _ => { status := .failed, returnCode := some 1, stdout := none,
                stderr := none, duration := 0,
                error := some "Exit code: 1" })
    "echo hi" [] 3 (by decide) (by decide)).2 (by decide)
  exact h

theorem checkDepsLoop_append_passing {υ : Type} [DecidableEq υ]
    (store : List (TaskRow υ)) (parse : String → Option υ) :
    ∀ (pre rest : List String),
      (∀ p ∈ pre, depPasses store parse p = true) →
      checkDepsLoop store parse (pre ++ rest) =
        checkDepsLoop store parse rest := by
  intro pre
  induction pre with
  | nil => intro rest _; rfl
  | cons d pre ih =>
    intro rest hall
    have hd : depPasses store parse d = true := hall d (by simp)
    unfold depPasses at hd
    cases hp : parse d with
    | none => simp [hp] at hd
    | some du =>
      cases hg : getTask store du with
      | none => simp [hp, hg] at hd
      | some dt =>
        simp only [hp, hg, Bool.and_eq_true, decide_eq_true_eq] at hd
        have hstep : checkDepsLoop store parse ((d :: pre) ++ rest) =
            checkDepsLoop store parse (pre ++ rest) := by
          simp [checkDepsLoop, hp, hg, hd.1, hd.2]
        rw [hstep, ih rest (fun p hmem => hall p (by simp [hmem]))]

/-- C3: `check_dependencies` is satisfied for a job with no (or an empty)
dependency list; otherwise it inspects dependencies in list order and
returns not-satisfied at the first failing one — malformed identity,
missing job, inactive dependency, or status other than `completed`, each
with its reason — never inspecting anything after the first failure (the
result is independent of the dependencies behind it). -/
theorem C3_dependency_gate {υ : Type} [DecidableEq υ] :
    ∀ (store : List (TaskRow υ)) (parse : String → Option υ) (tid : υ)
      (task : TaskRow υ),
      getTask store tid = some task →
      ((task.dependencies = none ∨ task.dependencies = some []) →
        checkDependencies store parse tid = (true, none)) ∧
      (∀ (pre : List String) (d : String) (post : List String),
        task.dependencies = some (pre ++ d :: post) →
        (∀ p ∈ pre, depPasses store parse p = true) →
        (parse d = none →
          checkDependencies store parse tid =
            (false, some ("Invalid dependency ID format: " ++ d))) ∧
        (∀ du, parse d = some du → getTask store du = none →
          checkDependencies store parse tid =
            (false, some ("Dependency task not found: " ++ d))) ∧
        (∀ du dt, parse d = some du → getTask store du = some dt →
          dt.isActive = false →
          checkDependencies store parse tid =
            (false, some ("Dependency '" ++ dt.name ++
              "' is disabled (is_active=False)"))) ∧
        (∀ du dt, parse d = some du → getTask store du = some dt →
          dt.isActive = true → dt.status ≠ "completed" →
          checkDependencies store parse tid =
            (false, some ("Dependency '" ++ dt.name ++
              "' not completed (status: " ++ dt.status ++ ")")))) := by
  intro store parse tid task htask
  constructor
  · intro hdeps
    rcases hdeps with h | h <;> simp [checkDependencies, htask, h]
  · intro pre d post hdeps hpass
    have hloop : checkDependencies store parse tid =
        checkDepsLoop store parse (d :: post) := by
      have hwhole : checkDependencies store parse tid =
          checkDepsLoop store parse (pre ++ d :: post) := by
        unfold checkDependencies
        simp only [htask, hdeps]
        cases hl : pre ++ d :: post with
        | nil => exact absurd hl (by simp)
        | cons x xs => simp
      rw [hwhole]
      exact checkDepsLoop_append_passing store parse pre (d :: post) hpass
    refine ⟨?_, ?_, ?_, ?_⟩
    · intro hp
      rw [hloop]
      simp [checkDepsLoop, hp]
    · intro du hp hg
      rw [hloop]
      simp [checkDepsLoop, hp, hg]
    · intro du dt hp hg hact
      rw [hloop]
      simp [checkDepsLoop, hp, hg, hact]
    · intro du dt hp hg hact hst
      rw [hloop]
      simp [checkDepsLoop, hp, hg, hact, hst]

/-- The `uuid.UUID` parser of the C3 witness scenario. -/
def c3Parse : String → Option Nat := fun s =>
  if s = "dep1" then some 1 else none

/-- C3 witness scenario: the dependent job. -/
def c3Main : TaskRow Nat :=
  { id := 0, name := "main", isActive := true, status := "pending",
    dependencies := some ["dep1", "other"] }

/-- C3 witness scenario: the not-yet-completed dependency. -/
def c3Dep : TaskRow Nat :=
  { id := 1, name := "depA", isActive := true, status := "running",
    dependencies := none }

/-- C3 witness scenario: the job store. -/
def c3Store : List (TaskRow Nat) := [c3Main, c3Dep]

/-- Witness for C3: a job whose first dependency is in status `running`
fails the check naming that dependency and its status, without inspecting
the later (unparseable) dependency. -/
theorem C3_dependency_gate_witness :
    getTask c3Store 0 = some c3Main ∧
    c3Main.dependencies = some ([] ++ "dep1" :: ["other"]) ∧
    checkDependencies c3Store c3Parse 0 =
      (false, some "Dependency 'depA' not completed (status: running)") := by
  have h1 : getTask c3Store 0 = some c3Main := rfl
  have h2 : c3Main.dependencies = some ([] ++ "dep1" :: ["other"]) := rfl
  have happ := ((C3_dependency_gate c3Store c3Parse 0 c3Main h1).2
    [] "dep1" ["other"] h2 (by simp)).2.2.2 1 c3Dep rfl rfl rfl (by decide)
  exact ⟨h1, h2, happ⟩

theorem sendNotification_outcome {υ : Type} (send : String → String → SendOutcome)
    (userId : υ) (channel recipient subject content eventType : String)
    (taskId executionId : Option υ) (hch : channel ∈ knownChannels) :
    ((send channel recipient).success = true →
      (sendNotification send userId channel recipient subject content
        eventType taskId executionId).status = "sent" ∧
      (sendNotification send userId channel recipient subject content
        eventType taskId executionId).sentAtSet = true ∧
      (sendNotification send userId channel recipient subject content
        eventType taskId executionId).retryCount = 0 ∧
      (sendNotification send userId channel recipient subject content
        eventType taskId executionId).errorMessage = none) ∧
    ((send channel recipient).success = false →
      (sendNotification send userId channel recipient subject content
        eventType taskId executionId).status = "failed" ∧
      (sendNotification send userId channel recipient subject content
        eventType taskId executionId).errorMessage =
        some ((send channel recipient).error.getD "Unknown error") ∧
      (sendNotification send userId channel recipient subject content
        eventType taskId executionId).retryCount = 1 ∧
      (sendNotification send userId channel recipient subject content
        eventType taskId executionId).sentAtSet = false) := by
  constructor
  · intro hs
    simp [sendNotification, hch, hs]
  · intro hs
    simp [sendNotification, hch, hs]

theorem length_filterMap_dispatch {υ : Type} [DecidableEq υ]
    (send : String → String → SendOutcome) (userId : υ)
    (subject content eventType : String) (taskId executionId : Option υ) :
    ∀ cfgs : List (NotifConfig υ),
      (cfgs.filterMap (fun c =>
        match c.recipient with
        | none => none
        | some r =>
          if r = "" then none
          else
            some (sendNotification send userId c.channel r subject content
              eventType taskId executionId))).length =
        (cfgs.filter hasRecipient).length := by
  intro cfgs
  induction cfgs with
  | nil => rfl
  | cons c cfgs ih =>
    cases hr : c.recipient with
    | none => simp [List.filterMap_cons, List.filter_cons, hr, hasRecipient, ih]
    | some r =>
      by_cases hre : r = ""
      · simp [List.filterMap_cons, List.filter_cons, hr, hre, hasRecipient, ih]
      · simp [List.filterMap_cons, List.filter_cons, hr, hre, hasRecipient, ih]

/-- C6: `notify_task_event` creates exactly one log row per selected config
with a non-empty recipient — whatever the provider outcome is; a selected
config without a (non-empty) recipient is skipped with no log row; no
matching configs means an empty result and no log rows; on provider failure
the row becomes `failed` with the error text recorded and the retry count
incremented, on success it becomes `sent` with the sent-time set.  Every
returned log row is the row created for one selected config. -/
theorem C6_notification_fanout {υ : Type} [DecidableEq υ] :
    ∀ (send : String → String → SendOutcome) (db : List (NotifConfig υ))
      (userId : υ) (taskName eventType : String)
      (taskId executionId : Option υ) (payload : Option ExecDict),
      (selectedConfigs db userId taskId eventType = [] →
        notifyTaskEvent send db userId taskName eventType taskId executionId
          payload = []) ∧
      ((notifyTaskEvent send db userId taskName eventType taskId executionId
          payload).length =
        ((selectedConfigs db userId taskId eventType).filter
          hasRecipient).length) ∧
      (∀ log ∈ notifyTaskEvent send db userId taskName eventType taskId
          executionId payload,
        ∃ c ∈ selectedConfigs db userId taskId eventType, ∃ r,
          c.recipient = some r ∧ r ≠ "" ∧
          log = sendNotification send userId c.channel r
            ("Task '" ++ taskName ++ "' " ++ eventType)
            (buildNotificationContent taskName eventType payload)
            eventType taskId executionId) ∧
      (∀ channel recipient subject content : String,
        channel ∈ knownChannels →
        ((send channel recipient).success = true →
          (sendNotification send userId channel recipient subject content
            eventType taskId executionId).status = "sent" ∧
          (sendNotification send userId channel recipient subject content
            eventType taskId executionId).sentAtSet = true ∧
          (sendNotification send userId channel recipient subject content
            eventType taskId executionId).retryCount = 0 ∧
          (sendNotification send userId channel recipient subject content
            eventType taskId executionId).errorMessage = none) ∧
        ((send channel recipient).success = false →
          (sendNotification send userId channel recipient subject content
            eventType taskId executionId).status = "failed" ∧
          (sendNotification send userId channel recipient subject content
            eventType taskId executionId).errorMessage =
            some ((send channel recipient).error.getD "Unknown error") ∧
          (sendNotification send userId channel recipient subject content
            eventType taskId executionId).retryCount = 1 ∧
          (sendNotification send userId channel recipient subject content
            eventType taskId executionId).sentAtSet = false)) := by
  intro send db userId tn ev tid eid payload
  have hnotify : notifyTaskEvent send db userId tn ev tid eid payload =
      if ev ≠ "success" ∧ ev ≠ "failure" ∧ ev ≠ "start" then []
      else if (selectedConfigs db userId tid ev).isEmpty then []
      else (selectedConfigs db userId tid ev).filterMap (fun c =>
        match c.recipient with
        | none => none
        | some r =>
          if r = "" then none
          else
            some (sendNotification send userId c.channel r
              ("Task '" ++ tn ++ "' " ++ ev)
              (buildNotificationContent tn ev payload) ev tid eid)) := rfl
  refine ⟨?_, ?_, ?_,
    fun ch r s c hch => sendNotification_outcome send userId ch r s c ev tid eid hch⟩
  · intro hsel
    rw [hnotify, hsel]
    simp
  · rw [hnotify]
    by_cases hev : ev ≠ "success" ∧ ev ≠ "failure" ∧ ev ≠ "start"
    · rw [if_pos hev]
      have hflag : ∀ cf : NotifConfig υ, eventFlag cf ev = false := fun cf => by
        simp [eventFlag, hev.1, hev.2.1, hev.2.2]
      have hsel : selectedConfigs db userId tid ev = [] := by
        simp [selectedConfigs, hflag]
      rw [hsel]
      rfl
    · rw [if_neg hev]
      cases hcase : selectedConfigs db userId tid ev with
      | nil => simp
      | cons x xs =>
        simp only [List.isEmpty_cons, Bool.false_eq_true, if_false, ite_false]
        exact length_filterMap_dispatch send userId _ _ ev tid eid (x :: xs)
  · intro log hlog
    rw [hnotify] at hlog
    by_cases hev : ev ≠ "success" ∧ ev ≠ "failure" ∧ ev ≠ "start"
    · rw [if_pos hev] at hlog
      simp at hlog
    · rw [if_neg hev] at hlog
      cases hcase : selectedConfigs db userId tid ev with
      | nil =>
        rw [hcase] at hlog
        simp at hlog
      | cons x xs =>
        rw [hcase] at hlog
        simp only [List.isEmpty_cons, Bool.false_eq_true, if_false,
          ite_false, List.mem_filterMap] at hlog
        rcases hlog with ⟨c, hc, hfc⟩
        refine ⟨c, hc, ?_⟩
        cases hr : c.recipient with
        | none =>
          rw [hr] at hfc
          simp at hfc
        | some r =>
          rw [hr] at hfc
          have hfc' : (if r = "" then none
              else some (sendNotification send userId c.channel r
                ("Task '" ++ tn ++ "' " ++ ev)
                (buildNotificationContent tn ev payload) ev tid eid)) =
              some log := hfc
          by_cases hre : r = ""
          · rw [if_pos hre] at hfc'
            cases hfc'
          · rw [if_neg hre] at hfc'
            cases hfc'
            exact ⟨r, rfl, hre, rfl⟩

/-- C6 witness scenario: a provider that always fails. -/
def c6Send : String → String → SendOutcome :=
  fun _ _ => { success := false, error := some "smtp down" }

/-- C6 witness scenario: three configs — one with a recipient and
`on_failure`, one with no recipient and `on_failure`, one not triggered on
failure. -/
def c6Db : List (NotifConfig Nat) :=
  [ { userId := 1, taskId := none, channel := "email", enabled := true,
      onSuccess := false, onFailure := true, onStart := false,
      recipient := some "ops@example.com" },
    { userId := 1, taskId := none, channel := "email", enabled := true,
      onSuccess := false, onFailure := true, onStart := false,
      recipient := none },
    { userId := 1, taskId := none, channel := "sms", enabled := true,
      onSuccess := true, onFailure := false, onStart := false,
      recipient := some "123" } ]

/-- Witness for C6: exactly one log row for the single triggered config
with a recipient, recorded as `failed` with retry count 1 under a failing
provider. -/
theorem C6_notification_fanout_witness :
    (notifyTaskEvent c6Send c6Db 1 "backup" "failure" none none none).length
      = 1 ∧
    ("email" ∈ knownChannels) ∧
    (c6Send "email" "ops@example.com").success = false ∧
    (sendNotification c6Send (1 : Nat) "email" "ops@example.com" "subj" "body"
      "failure" none none).status = "failed" ∧
    (sendNotification c6Send (1 : Nat) "email" "ops@example.com" "subj" "body"
      "failure" none none).retryCount = 1 := by
  have h := C6_notification_fanout c6Send c6Db 1 "backup" "failure" none none
    none
  have hfail := (h.2.2.2 "email" "ops@example.com" "subj" "body"
    (by decide)).2 (by decide)
  exact ⟨h.2.1.trans (by decide), by decide, by decide, hfail.1, hfail.2.2.1⟩

/-- C9 counterexample: on the input `" x "`, `sanitize_command` returns
`"x"`, while removing null bytes and collapsing newline runs alone (the only
transformations the claim allows) leaves `" x "` — the final `.strip()` is
an additional transformation. -/
theorem C9_strip_is_extra_transformation :
    sanitizeCommand " x " = "x" ∧
    String.mk (collapseNewlines (removeNullBytes (" x ").toList)) = " x " ∧
    sanitizeCommand " x " ≠
      String.mk (collapseNewlines (removeNullBytes (" x ").toList)) :=
  ⟨rfl, rfl, by decide⟩

theorem collapseNewlines_sublist :
    ∀ l, List.Sublist (collapseNewlines l) l := by
  intro l
  induction l using collapseNewlines.induct with
  | case1 rest ih =>
    rw [collapseNewlines]
    exact ih.cons '\n'
  | case2 c rest h ih =>
    rw [collapseNewlines.eq_2 c rest h]
    exact ih.cons₂ c
  | case3 =>
    simp [collapseNewlines]

theorem collapseNewlines_head :
    ∀ l, (collapseNewlines l).head? = l.head? := by
  intro l
  induction l using collapseNewlines.induct with
  | case1 rest ih =>
    rw [collapseNewlines, ih]
    rfl
  | case2 c rest h ih =>
    rw [collapseNewlines.eq_2 c rest h]
    simp
  | case3 => rfl

theorem collapseNewlines_no_triple :
    ∀ l, ¬ (['\n', '\n', '\n'] <:+: collapseNewlines l) := by
  intro l
  induction l using collapseNewlines.induct with
  | case1 rest ih =>
    rw [collapseNewlines]
    exact ih
  | case2 c rest h ih =>
    rw [collapseNewlines.eq_2 c rest h]
    intro htr
    rcases List.infix_cons_iff.mp htr with hpre | hinf
    · rcases List.cons_prefix_cons.mp hpre with ⟨hc, hpre2⟩
      subst hc
      rcases hpre2 with ⟨t, ht⟩
      cases hrest : rest with
      | nil =>
        rw [hrest] at ht
        simp [collapseNewlines] at ht
      | cons a rest2 =>
        have hha : (collapseNewlines rest).head? = some '\n' := by
          rw [← ht]
          rfl
        rw [collapseNewlines_head, hrest] at hha
        have ha : a = '\n' := by
          simpa using hha
        subst ha
        have h2 : ∀ r3 : List Char, rest2 ≠ '\n' :: r3 := by
          intro r3 hr3
          exact h r3 rfl (by rw [hrest, hr3])
        have hr2h : rest2.head? ≠ some '\n' := by
          cases rest2 with
          | nil => simp
          | cons b r3 =>
            intro hb
            have hb' : b = '\n' := by simpa using hb
            exact h2 r3 (by rw [hb'])
        have hcr : collapseNewlines rest = '\n' :: collapseNewlines rest2 := by
          rw [hrest]
          rw [collapseNewlines.eq_2 '\n' rest2]
          intro r3 _ hr3
          exact h2 ('\n' :: r3) hr3
        rw [hcr] at ht
        injection ht with hh ht2
        have : rest2.head? = some '\n' := by
          rw [← collapseNewlines_head, ← ht2]
          rfl
        exact hr2h this
    · exact ih hinf
  | case3 =>
    simp [collapseNewlines]

theorem collapseNewlines_eq_self :
    ∀ l, ¬ (['\n', '\n', '\n'] <:+: l) → collapseNewlines l = l := by
  intro l
  induction l using collapseNewlines.induct with
  | case1 rest ih =>
    intro htr
    exact absurd (List.IsPrefix.isInfix ⟨rest, rfl⟩) htr
  | case2 c rest h ih =>
    intro htr
    rw [collapseNewlines.eq_2 c rest h]
    rw [ih (fun hinf => htr (List.infix_cons hinf))]
  | case3 => intro _; rfl

theorem head_dropWhile_all (p : Char → Bool) :
    ∀ l : List Char, ((l.dropWhile p).head?.all fun c => !p c) = true := by
  intro l
  induction l with
  | nil => rfl
  | cons a l ih =>
    by_cases hp : p a
    · simpa [List.dropWhile_cons, hp] using ih
    · simp [List.dropWhile_cons, hp]

theorem head_of_prefix {α : Type} {t m : List α} (h : t <+: m) (hne : t ≠ []) :
    t.head? = m.head? := by
  rcases h with ⟨r, rfl⟩
  cases t with
  | nil => exact absurd rfl hne
  | cons a t' => rfl

theorem pyStrip_sublist (l : List Char) : List.Sublist (pyStrip l) l := by
  unfold pyStrip
  exact ((List.rdropWhile_prefix isPyWs _).sublist).trans
    ((List.dropWhile_suffix isPyWs).sublist)

theorem pyStrip_contiguous (l : List Char) : pyStrip l <:+: l :=
  List.infix_iff_prefix_suffix.mpr
    ⟨l.dropWhile isPyWs, List.rdropWhile_prefix isPyWs _,
      List.dropWhile_suffix isPyWs⟩

theorem pyStrip_head (l : List Char) :
    ((pyStrip l).head?.all fun c => !isPyWs c) = true := by
  cases hs : pyStrip l with
  | nil => rfl
  | cons a t =>
    have hpre : pyStrip l <+: l.dropWhile isPyWs :=
      List.rdropWhile_prefix isPyWs _
    have hh : (pyStrip l).head? = (l.dropWhile isPyWs).head? :=
      head_of_prefix hpre (by rw [hs]; exact List.cons_ne_nil a t)
    have hall := head_dropWhile_all isPyWs l
    rw [← hh, hs] at hall
    exact hall

theorem pyStrip_last (l : List Char) :
    ((pyStrip l).getLast?.all fun c => !isPyWs c) = true := by
  by_cases hne : pyStrip l = []
  · rw [hne]; rfl
  · have hne' : (l.dropWhile isPyWs).rdropWhile isPyWs ≠ [] := hne
    have hlast := List.rdropWhile_last_not isPyWs (l.dropWhile isPyWs) hne'
    have hg : (pyStrip l).getLast? = some ((pyStrip l).getLast hne) :=
      List.getLast?_eq_getLast _ hne
    rw [hg]
    simpa using hlast

theorem pyStrip_eq_self (l : List Char)
    (hh : (l.head?.all fun c => !isPyWs c) = true)
    (hl : (l.getLast?.all fun c => !isPyWs c) = true) :
    pyStrip l = l := by
  have h1 : l.dropWhile isPyWs = l := by
    cases l with
    | nil => rfl
    | cons a t =>
      have ha : isPyWs a = false := by simpa using hh
      simp [List.dropWhile_cons, ha]
  unfold pyStrip
  rw [h1]
  apply List.rdropWhile_eq_self_iff.mpr
  intro hne
  rw [List.getLast?_eq_getLast l hne] at hl
  simpa using hl

theorem removeNullBytes_eq_self (l : List Char) (h : '\x00' ∉ l) :
    removeNullBytes l = l := by
  unfold removeNullBytes
  apply List.filter_eq_self.mpr
  intro a ha
  have : a ≠ '\x00' := fun heq => h (heq ▸ ha)
  simpa using this

/-- C9 (amended): `sanitize_command` removes null bytes, collapses runs of
3 or more newlines to exactly 2, and ALSO strips leading/trailing
whitespace — and performs no other transformation: the result is a
subsequence of the input containing no null byte and no 3 consecutive
newlines, its ends are not whitespace, and an input already in that shape
is returned unchanged. -/
theorem C9_sanitize_characterization :
    ∀ s : String,
      List.Sublist (sanitizeCommand s).toList s.toList ∧
      '\x00' ∉ (sanitizeCommand s).toList ∧
      ¬ (['\n', '\n', '\n'] <:+: (sanitizeCommand s).toList) ∧
      (((sanitizeCommand s).toList.head?.all fun c => !isPyWs c) = true) ∧
      (((sanitizeCommand s).toList.getLast?.all fun c => !isPyWs c) = true) ∧
      (('\x00' ∉ s.toList ∧ ¬ (['\n', '\n', '\n'] <:+: s.toList) ∧
        (s.toList.head?.all fun c => !isPyWs c) = true ∧
        (s.toList.getLast?.all fun c => !isPyWs c) = true) →
        sanitizeCommand s = s) := by
  intro s
  have hlist : (sanitizeCommand s).toList =
      pyStrip (collapseNewlines (removeNullBytes s.toList)) := rfl
  refine ⟨?_, ?_, ?_, ?_, ?_, ?_⟩
  · rw [hlist]
    exact (pyStrip_sublist _).trans
      ((collapseNewlines_sublist _).trans (List.filter_sublist _))
  · rw [hlist]
    intro hmem
    have m1 := (pyStrip_sublist _).subset hmem
    have m2 := (collapseNewlines_sublist _).subset m1
    simp [removeNullBytes] at m2
  · rw [hlist]
    intro htr
    exact collapseNewlines_no_triple (removeNullBytes s.toList)
      (htr.trans (pyStrip_contiguous _))
  · rw [hlist]
    exact pyStrip_head _
  · rw [hlist]
    exact pyStrip_last _
  · rintro ⟨h0, h3, hhd, hlt⟩
    have e1 : removeNullBytes s.toList = s.toList :=
      removeNullBytes_eq_self _ h0
    show String.mk (pyStrip (collapseNewlines (removeNullBytes s.toList))) = s
    rw [e1, collapseNewlines_eq_self _ h3, pyStrip_eq_self _ hhd hlt]
    rfl

/-- Witness for C9 (amended) at the already-clean input `"ab"`. -/
theorem C9_sanitize_characterization_witness :
    List.Sublist (sanitizeCommand "ab").toList ("ab").toList ∧
    ('\x00' ∉ ("ab").toList ∧ ¬ (['\n', '\n', '\n'] <:+: ("ab").toList) ∧
      (("ab").toList.head?.all fun c => !isPyWs c) = true ∧
      (("ab").toList.getLast?.all fun c => !isPyWs c) = true) ∧
    sanitizeCommand "ab" = "ab" := by
  have h := C9_sanitize_characterization "ab"
  have hclean : '\x00' ∉ ("ab").toList ∧
      ¬ (['\n', '\n', '\n'] <:+: ("ab").toList) ∧
      (("ab").toList.head?.all fun c => !isPyWs c) = true ∧
      (("ab").toList.getLast?.all fun c => !isPyWs c) = true :=
    ⟨by decide, by decide, by decide, by decide⟩
  exact ⟨h.1, hclean, h.2.2.2.2.2 hclean⟩

end Taskmaster
